import Mathlib

/-!
# Verification of the wikilite import pipeline and traversal engine

A shallow embedding of the relevant parts of the `wikilite` repository:

* `src/wikilite/frontend/helpers.py` — the recursive-CTE bounded-depth
  relationship traversal over the triplet store;
* `src/wikilite/base.py` — the simplified (word, definition) import pipeline
  (`from_jsonl`, `_import_words`, `_import_triples`) with its closure filter;
* `src/wikilite/importer.py` — the batch `WiktionaryImporter` with its pending
  buffers, two-phase `flush_batch` and `finalize`;
* `src/wikilite/database.py` — the MD5-based store fingerprint and cache path;
* `src/wikilite/utils/wiktextract.py` — the record model of one source entry.

Machine integers are modelled as `Nat`/`Int` with explicit `% 2^32` where the
MD5 rounds overflow; fallible steps return explicit error components; SQL
tables are lists of row structures, surrogate keys are `Nat` ids assigned
sequentially (SQLite autoincrement); a transaction is a pair of a committed and
a working store snapshot.
-/

namespace Wikilite

/-! ## Triplet rows (simplified schema)

`base.py` and `frontend/helpers.py` import `Word`, `Triplet`, `Example` from
`wikilite.models`, but the checked-in `models.py` holds a different (Entry
based) schema: the `Triplet` class itself is absent from the tree.  Its columns
are reconstructed from every use site (`Triplet.id`, `Triplet.subject_id`,
`Triplet.predicate`, `Triplet.object_id` in `helpers.py`;
`Triplet(subject=…, predicate=…, object=…)` in `base.py`) and from the spec's
Relation entity `{id, subject_word_id, predicate, object_word_id}`. -/

/-- A persisted row of the triplet table: a directed, predicate-labelled edge
between two `Word` rows, with an autoincrement primary key `id`. -/
structure Triplet where
  id : Nat
  subject_id : Nat
  predicate : String
  object_id : Nat
deriving DecidableEq

/-- A persisted row of the simplified `Word` table used by `base.py` and
`helpers.py`: one row per (literal, definition) pair, `id` autoincrement. -/
structure BWord where
  id : Nat
  word : String
  definition : String
deriving DecidableEq

namespace Frontend

/-- `if rel_types:` in Python: the predicate filter applies only when the
`rel_types` argument is present and non-empty (an empty list is falsy). -/
def relTypeOk (relTypes : Option (List String)) (p : String) : Bool :=
  match relTypes with
  | none => true
  | some ts => if ts.isEmpty then true else ts.contains p

/-- One row of the `relationship_tree` recursive CTE in
`get_relationships_with_depth`: a copy of a triplet row plus its `level`. -/
structure CteRow where
  id : Nat
  subject_id : Nat
  predicate : String
  object_id : Nat
  level : Nat
deriving DecidableEq

/-- The non-recursive part of the CTE: all triplet rows incident to `wordId`
(as subject or object), at level 1, filtered by `relTypes` when given. -/
def baseRows (edges : List Triplet) (wordId : Nat) (relTypes : Option (List String)) :
    List CteRow :=
  (edges.filter fun t =>
      (t.subject_id == wordId || t.object_id == wordId) && relTypeOk relTypes t.predicate).map
    fun t => ⟨t.id, t.subject_id, t.predicate, t.object_id, 1⟩

/-- The join condition of the recursive part: the candidate triplet `t` shares
an endpoint (in either role) with the CTE row `r`. -/
def adjacent (t : Triplet) (r : CteRow) : Bool :=
  t.subject_id == r.object_id || t.subject_id == r.subject_id ||
    t.object_id == r.object_id || t.object_id == r.subject_id

/-- The recursive part of the CTE applied to one generation of rows: every
triplet adjacent to a row of level `< depth` (and passing the predicate
filter) is emitted at that row's level plus one. -/
def stepRows (edges : List Triplet) (depth : Nat) (relTypes : Option (List String))
    (rows : List CteRow) : List CteRow :=
  rows.flatMap fun r =>
    if r.level < depth then
      (edges.filter fun t => adjacent t r && relTypeOk relTypes t.predicate).map
        fun t => ⟨t.id, t.subject_id, t.predicate, t.object_id, r.level + 1⟩
    else []

/-- SQL `UNION ALL` recursive-CTE semantics: iterate the recursive part on the
rows produced by the previous iteration.  Every produced row has level one more
than its parent and production is guarded by `level < depth`, so `depth`
iterations exhaust the fixpoint (later iterations only produce `[]`). -/
def cteIter (edges : List Triplet) (depth : Nat) (relTypes : Option (List String)) :
    Nat → List CteRow → List CteRow
  | 0, _ => []
  | fuel + 1, frontier =>
      let next := stepRows edges depth relTypes frontier
      next ++ cteIter edges depth relTypes fuel next

/-- All rows of the `relationship_tree` CTE. -/
def relationshipTreeRows (edges : List Triplet) (wordId depth : Nat)
    (relTypes : Option (List String)) : List CteRow :=
  let base := baseRows edges wordId relTypes
  base ++ cteIter edges depth relTypes depth base

/-- Insert a triplet into a list sorted by ascending `id`. -/
def insertById (t : Triplet) : List Triplet → List Triplet
  | [] => [t]
  | u :: us => if t.id ≤ u.id then t :: u :: us else u :: insertById t us

/-- `ORDER BY Triplet.id`: sort triplet rows by ascending id. -/
def sortById (ts : List Triplet) : List Triplet := ts.foldr insertById []

/-- `get_relationships_with_depth` (helpers.py:69–126): the final query selects
the distinct triplet rows whose id occurs in the CTE, ordered by ascending id.
Table rows are distinct (primary key), so `DISTINCT` is the one-pass filter. -/
def get_relationships_with_depth (edges : List Triplet) (wordId : Nat) (depth : Nat)
    (relTypes : Option (List String)) : List Triplet :=
  let ids := (relationshipTreeRows edges wordId depth relTypes).map (·.id)
  sortById (edges.filter fun t => ids.contains t.id)

end Frontend

/-! ## The wiktextract record model (`utils/wiktextract.py`)

Only the fields that `base.py` and `importer.py` read are carried. -/

/-- `wiktextract.WordLinkage` (the fields read by the importers): one raw
relation entry attached to an entry or a sense. -/
structure WordLinkage where
  word : String
  sense : Option String := none
  topics : Option (List String) := none
  taxonomic : Option String := none
  roman : Option String := none
deriving DecidableEq

/-- `wiktextract.Example`: one usage example attached to a sense. -/
structure WExample where
  text : Option String := none
  ref : Option String := none
  english : Option String := none
  type : Option String := none
  roman : Option String := none
  note : Option String := none
deriving DecidableEq

/-- `wiktextract.WordSense`.  Note: the pydantic model has `synonyms`,
`antonyms`, `hypernyms`, `holonyms`, `meronyms`, `coordinate_terms`, `derived`
and `related` linkage lists but NO `hyponyms` field. -/
structure WordSense where
  glosses : List String := []
  raw_glosses : List String := []
  tags : List String := []
  topics : List String := []
  synonyms : List WordLinkage := []
  antonyms : List WordLinkage := []
  hypernyms : List WordLinkage := []
  holonyms : List WordLinkage := []
  meronyms : List WordLinkage := []
  coordinate_terms : List WordLinkage := []
  derived : List WordLinkage := []
  related : List WordLinkage := []
  examples : List WExample := []
  english : Option String := none
deriving DecidableEq

/-- One entry form dict `{form, tags, ipa, roman, source}` of
`wiktextract.WordEntry.forms`; `tags` is `none` when the key is absent
(`if "tags" in form_data` in `importer.py`). -/
structure EntryForm where
  form : String
  tags : Option (List String) := none
  ipa : Option String := none
  roman : Option String := none
  source : Option String := none
deriving DecidableEq

/-- `wiktextract.WordEntry` (the fields read by the importers).  `categories`
is a list of dicts in the source of which only `cat["name"]` is ever read, so
it is carried as the list of names. -/
structure WordEntry where
  word : String
  pos : String
  lang : String
  lang_code : String
  senses : List WordSense := []
  forms : List EntryForm := []
  categories : List String := []
  topics : List String := []
  etymology_text : Option String := none
  etymology_number : Int := 0
  synonyms : List WordLinkage := []
  antonyms : List WordLinkage := []
  hypernyms : List WordLinkage := []
  holonyms : List WordLinkage := []
  meronyms : List WordLinkage := []
  derived : List WordLinkage := []
  related : List WordLinkage := []
  coordinate_terms : List WordLinkage := []
  wiktionary : Option String := none
deriving DecidableEq

/-- `WordSense.definitions` (wiktextract.py:57–63): the glosses when non-empty,
else the raw glosses when non-empty, else a `ValueError` — modelled as `none`. -/
def WordSense.definitions (s : WordSense) : Option (List String) :=
  if !s.glosses.isEmpty then some s.glosses
  else if !s.raw_glosses.isEmpty then some s.raw_glosses
  else none

/-- Modelled from the spec: `WordSense.definition` (singular) is read by
`from_jsonl` (base.py:151) but no such property exists in the checked-in
`wiktextract.py` (which only defines `definitions`).  The spec's Sense entity
carries a single `definition_text`, so the property is modelled as the first
definition; the `ValueError` of `definitions` (propagated by the missing
property and caught in `from_jsonl`) is modelled as `none`. -/
def WordSense.definition (s : WordSense) : Option String :=
  (WordSense.definitions s).bind List.head?

/-- The fixed plural → canonical-singular predicate table, translated from
`relation_types` in `WiktionaryImporter._process_sense_relations`
(importer.py:126–133). -/
def relation_types : List (String × String) :=
  [("synonyms", "synonym"), ("antonyms", "antonym"), ("hypernyms", "hypernym"),
   ("hyponyms", "hyponym"), ("meronyms", "meronym"), ("holonyms", "holonym")]

/-- Modelled from the spec: `singularize_relation` is imported from
`wikilite.utils.wiktextract` by `base.py` but absent from the checked-in file.
Per spec §4.1 it strips the trailing plural marker per the fixed mapping table
(the same table as `relation_types` in importer.py) and passes unmapped
predicate names through unchanged. -/
def singularize_relation (rel : String) : String :=
  match relation_types.lookup rel with
  | some s => s
  | none => rel

/-- Modelled from the spec: `get_relations` is imported from
`wikilite.utils.wiktextract` by `base.py` but absent from the checked-in file.
Per spec §4.1 it returns the raw relation lists of its argument keyed by the
plural field name; the scratch callers (`word-sense-v2.py`) apply it to an
entry and to each sense separately, so on a `WordEntry` it reads the entry's
own linkage fields, in field-declaration order. -/
def get_relations (e : WordEntry) : List (String × List WordLinkage) :=
  [("synonyms", e.synonyms), ("antonyms", e.antonyms), ("hypernyms", e.hypernyms),
   ("holonyms", e.holonyms), ("meronyms", e.meronyms), ("derived", e.derived),
   ("related", e.related), ("coordinate_terms", e.coordinate_terms)]

/-! ## The simplified import pipeline (`base.py`) -/

namespace Base

/-- A subject/predicate/object triple of word literals. -/
abbrev T3 := String × String × String

/-- A persisted row of the simplified `Example` table (`base.py` creates
`Example(word=word_obj, example=example_text)`); the class is absent from the
checked-in `models.py`, its columns reconstructed from that call.  The source
column is named `example`, a Lean keyword, hence `example_text` here. -/
structure BExample where
  word_id : Nat
  example_text : String
deriving DecidableEq

/-- The store produced by `from_jsonl`. -/
structure BStore where
  words : List BWord
  examples : List BExample
  triplets : List Triplet
deriving DecidableEq

/-- `triples.add t`: Python set insertion, modelled as append-if-absent. -/
def insertTriple (ts : List T3) (t : T3) : List T3 :=
  if ts.contains t then ts else ts ++ [t]

/-- The in-memory `data` map `word -> definition -> [examples]`, as an
insertion-ordered association list (Python dicts preserve insertion order). -/
abbrev Data := List (String × List (String × List String))

/-- `data[word][definition].extend(ex)` with the two `setdefault`-style guards
of base.py:154–160: create the inner dict / list when absent, else extend. -/
def updInner (d : List (String × List String)) (dfn : String) (ex : List String) :
    List (String × List String) :=
  match d with
  | [] => [(dfn, ex)]
  | (k, v) :: rest =>
      if k = dfn then (k, v ++ ex) :: rest else (k, v) :: updInner rest dfn ex

/-- Update of the outer `data` dict for one sense of `word`. -/
def updData (data : Data) (word dfn : String) (ex : List String) : Data :=
  match data with
  | [] => [(word, [(dfn, ex)])]
  | (k, v) :: rest =>
      if k = word then (k, updInner v dfn ex) :: rest
      else (k, v) :: updData rest word dfn ex

/-- `[e.text for e in sense.examples if e.text]`: the non-empty example
texts (Python truthiness drops both `None` and `""`). -/
def exTexts (s : WordSense) : List String :=
  s.examples.filterMap fun ex =>
    match ex.text with
    | some t => if t = "" then none else some t
    | none => none

/-- The inner `for link in links` loop of base.py:145–148.  Note the source
rebinds `rel` to `singularize_relation(rel)` inside the loop, so from the
second link on the already-singularized name is singularized again; the fold
carries the rebound name faithfully. -/
def addLinkTriples (word : String) (ts : List T3) (relLinks : String × List WordLinkage) :
    List T3 :=
  (relLinks.2.foldl
    (fun (acc : String × List T3) link =>
      let r := singularize_relation acc.1
      (r, insertTriple acc.2 (word, r, link.word)))
    (relLinks.1, ts)).2

/-- The per-sense branch of the entry loop (base.py:149–160): skip senses
without a definition, otherwise record the definition and its example texts. -/
def addSenseData (word : String) (data : Data) (s : WordSense) : Data :=
  match WordSense.definition s with
  | none => data
  | some dfn => updData data word dfn (exTexts s)

/-- One iteration of the `for entry in wiktextract.load(path)` loop
(base.py:142–160): first the relation triples, then the sense data. -/
def processEntry (acc : List T3 × Data) (e : WordEntry) : List T3 × Data :=
  ((get_relations e).foldl (addLinkTriples e.word) acc.1,
   e.senses.foldl (addSenseData e.word) acc.2)

/-- The full collection pass of `from_jsonl` over the input stream. -/
def collectAll (entries : List WordEntry) : List T3 × Data :=
  entries.foldl processEntry ([], [])

/-- `{w for w,_,_ in triples} | {w for _,_,w in triples}` (membership view). -/
def tripleWords (ts : List T3) : List String :=
  ts.map (·.1) ++ ts.map (·.2.2)

/-- `words = words.intersection(data.keys())` (base.py:162–164). -/
def retainedWords (triples : List T3) (data : Data) : List String :=
  (tripleWords triples).filter fun w => (data.map (·.1)).contains w

/-- `data = [(w, d) for w, d in data.items() if w in words]` (base.py:166). -/
def filterData (data : Data) (words : List String) : Data :=
  data.filter fun p => words.contains p.1

/-- `triples = {t for t in triples if t[0] in words or t[2] in words}`
(base.py:168) — note the disjunction: one retained endpoint suffices. -/
def filterTriples (triples : List T3) (words : List String) : List T3 :=
  triples.filter fun t => words.contains t.1 || words.contains t.2.2

/-- The word-row pass of `_import_words` (base.py:33–49): one `Word` row per
(word, definition) pair, in stream order, ids assigned sequentially by the
flushes. -/
def importWordRows (data : Data) : List BWord :=
  (data.flatMap fun p => p.2.map fun q => (p.1, q.1)).mapIdx fun i r => ⟨i, r.1, r.2⟩

/-- The example pass of `_import_words` (base.py:51–70): `word_map[word_str]`
lists the rows created for that literal in definition order, zipped against
the definition dict items. -/
def importExampleRows (data : Data) (words : List BWord) : List BExample :=
  data.flatMap fun p =>
    ((words.filter fun w => w.word = p.1).zip p.2).flatMap fun wq =>
      wq.2.2.map fun t => ⟨wq.1.id, t⟩

/-- The cross-product triplet construction of `_import_triples`
(base.py:88–110): for each triple, every subject row with the subject literal
is paired with every object row with the object literal; a triple whose
subject or object literal has no row yields nothing. -/
def tripletPairs (words : List BWord) (triples : List T3) : List (Nat × String × Nat) :=
  triples.flatMap fun t =>
    (words.filter fun w => w.word = t.1).flatMap fun s =>
      (words.filter fun w => w.word = t.2.2).map fun o => (s.id, t.2.1, o.id)

/-- `_import_triples` (base.py:75–113): persist the cross-product triplets,
ids assigned sequentially. -/
def _import_triples (words : List BWord) (triples : List T3) : List Triplet :=
  (tripletPairs words triples).mapIdx fun i p => ⟨i, p.1, p.2.1, p.2.2⟩

/-- `WikiLite.from_jsonl` (base.py:134–173): collect, closure-filter, then
write words, examples and triplets into a fresh store. -/
def from_jsonl (entries : List WordEntry) : BStore :=
  let td := collectAll entries
  let words := retainedWords td.1 td.2
  let data := filterData td.2 words
  let triples := filterTriples td.1 words
  let wordRows := importWordRows data
  { words := wordRows
    examples := importExampleRows data wordRows
    triplets := _import_triples wordRows triples }

end Base

/-! ## The batch importer (`importer.py`)

The ORM classes it instantiates (`Word`, `Sense`, `Gloss`, `Example`,
`WordForm`, `SenseRelation`, `Category`, `Topic`, `Tag`) are absent from the
checked-in `models.py`; their columns are reconstructed from the constructor
calls and attribute accesses in `importer.py` and from the spec's data model
(§3).  Pending (not yet flushed) ORM objects reference their parent objects;
this is modelled by the parent's index in the corresponding pending buffer,
which is stable because buffers only grow between flushes. -/

namespace Importer

/-- A pending `Word` ORM object (importer.py:93–105 and 139–144).  Fields not
passed to the constructor default to `none` / `[]`. -/
structure PWord where
  word : String
  pos : String
  lang : String
  lang_code : String
  etymology_text : Option String := none
  etymology_number : Option Int := none
  wiktionary_id : Option String := none
  categories : List String := []
  topics : List String := []
deriving DecidableEq

/-- A pending `Sense` ORM object: its word reference (index into the pending
word buffer) and the `english` field (importer.py:147, 163). -/
structure PSense where
  wordIdx : Nat
  english : Option String := none
  tags : List String := []
deriving DecidableEq

/-- A pending `Gloss` ORM object (importer.py:168, 172). -/
structure PGloss where
  senseIdx : Nat
  text : String
  is_raw : Bool
deriving DecidableEq

/-- A pending `Example` ORM object (importer.py:177–185). -/
structure PExample where
  senseIdx : Nat
  text : Option String
  ref : Option String
  english : Option String
  type : Option String
  roman : Option String
  note : Option String
deriving DecidableEq

/-- A pending `WordForm` ORM object (importer.py:113–122). -/
structure PForm where
  wordIdx : Nat
  form : String
  ipa : Option String
  roman : Option String
  source : Option String
  tags : List String := []
deriving DecidableEq

/-- A pending `SenseRelation` ORM object (importer.py:151–158); source and
target are indices into the pending sense buffer. -/
structure PRelation where
  sourceIdx : Nat
  targetIdx : Nat
  relation_type : String
  topics : Option String
  taxonomic : Option String
  roman : Option String
deriving DecidableEq

/-- A committed `Word` row: a pending word plus its assigned primary key. -/
structure DWord where
  id : Nat
  data : PWord
deriving DecidableEq

/-- A committed `Sense` row with its resolved `word_id` foreign key. -/
structure DSense where
  id : Nat
  word_id : Nat
  english : Option String
  tags : List String
deriving DecidableEq

/-- A committed `Gloss` row with its resolved `sense_id` foreign key. -/
structure DGloss where
  sense_id : Nat
  text : String
  is_raw : Bool
deriving DecidableEq

/-- A committed `Example` row with its resolved `sense_id` foreign key. -/
structure DExample where
  sense_id : Nat
  text : Option String
  ref : Option String
  english : Option String
  type : Option String
  roman : Option String
  note : Option String
deriving DecidableEq

/-- A committed `WordForm` row with its resolved `word_id` foreign key. -/
structure DForm where
  word_id : Nat
  form : String
  ipa : Option String
  roman : Option String
  source : Option String
  tags : List String
deriving DecidableEq

/-- A committed `SenseRelation` row with resolved foreign keys. -/
structure DRelation where
  source_id : Nat
  target_id : Nat
  relation_type : String
  topics : Option String
  taxonomic : Option String
  roman : Option String
deriving DecidableEq

/-- The relational store written by the importer: the five entity tables, the
three dimension tables (rows carried by name, deduplicated), and the
autoincrement counters of the two tables whose generated keys are read back. -/
structure DB where
  words : List DWord := []
  senses : List DSense := []
  glosses : List DGloss := []
  examples : List DExample := []
  forms : List DForm := []
  relations : List DRelation := []
  categories : List String := []
  topics : List String := []
  tags : List String := []
  next_word_id : Nat := 0
  next_sense_id : Nat := 0
deriving DecidableEq

/-- An open SQLAlchemy session: the durable `committed` store and the
`working` snapshot holding uncommitted writes.  `session.add` + `session.flush`
write to `working`; `commit` makes `working` durable; `rollback` discards it. -/
structure Sess where
  committed : DB
  working : DB
deriving DecidableEq

/-- `session.commit()`. -/
def Sess.commit (s : Sess) : Sess := ⟨s.working, s.working⟩

/-- `session.rollback()`. -/
def Sess.rollback (s : Sess) : Sess := ⟨s.committed, s.committed⟩

/-- The mutable state of a `WiktionaryImporter` (importer.py:24–51): the
session, the batch size, the three dimension caches and the six pending
buffers, plus the processed-entries counter. -/
structure Imp where
  sess : Sess
  batch_size : Nat := 1000
  category_cache : List String := []
  topic_cache : List String := []
  tag_cache : List String := []
  pending_words : List PWord := []
  pending_senses : List PSense := []
  pending_glosses : List PGloss := []
  pending_examples : List PExample := []
  pending_forms : List PForm := []
  pending_relations : List PRelation := []
  entries_processed : Nat := 0
deriving DecidableEq

/-- `WiktionaryImporter.__init__` + `_preload_caches` (importer.py:24–65):
fresh buffers, caches preloaded from the store. -/
def initImporter (db : DB) (batch_size : Nat) : Imp :=
  { sess := ⟨db, db⟩
    batch_size := batch_size
    category_cache := db.categories
    topic_cache := db.topics
    tag_cache := db.tags }

/-- `_get_category` (importer.py:67–73): cache hit returns the cached row;
otherwise a new row is created, `session.add`ed and cached. -/
def get_category (st : Imp) (name : String) : Imp :=
  if st.category_cache.contains name then st
  else
    { st with
      category_cache := st.category_cache ++ [name]
      sess := { st.sess with
                working := { st.sess.working with
                             categories := st.sess.working.categories ++ [name] } } }

/-- `_get_topic` (importer.py:75–81). -/
def get_topic (st : Imp) (name : String) : Imp :=
  if st.topic_cache.contains name then st
  else
    { st with
      topic_cache := st.topic_cache ++ [name]
      sess := { st.sess with
                working := { st.sess.working with
                             topics := st.sess.working.topics ++ [name] } } }

/-- `_get_tag` (importer.py:83–89). -/
def get_tag (st : Imp) (name : String) : Imp :=
  if st.tag_cache.contains name then st
  else
    { st with
      tag_cache := st.tag_cache ++ [name]
      sess := { st.sess with
                working := { st.sess.working with
                             tags := st.sess.working.tags ++ [name] } } }

/-- `_process_word` (importer.py:91–108): resolve the dimension rows, build
the `Word` object and append it to the pending buffer; the new object is
identified by its buffer index. -/
def process_word (st : Imp) (e : WordEntry) : Imp × Nat :=
  let st := e.categories.foldl get_category st
  let st := e.topics.foldl get_topic st
  let w : PWord :=
    { word := e.word, pos := e.pos, lang := e.lang, lang_code := e.lang_code
      etymology_text := e.etymology_text
      etymology_number := some e.etymology_number
      wiktionary_id := e.wiktionary
      categories := e.categories, topics := e.topics }
  ({ st with pending_words := st.pending_words ++ [w] }, st.pending_words.length)

/-- `_process_word_forms` (importer.py:110–122). -/
def process_word_forms (st : Imp) (wordIdx : Nat) (e : WordEntry) : Imp :=
  e.forms.foldl
    (fun st fd =>
      let st := (fd.tags.getD []).foldl get_tag st
      { st with
        pending_forms := st.pending_forms ++
          [({ wordIdx := wordIdx, form := fd.form, ipa := fd.ipa, roman := fd.roman
              source := fd.source, tags := fd.tags.getD [] } : PForm)] })
    st

/-- The `(attr, rel_type)` pairs iterated by `_process_sense_relations`
(importer.py:135–136), paired with `getattr(word_sense, attr, [])`: the
`WordSense` pydantic model has no `hyponyms` field, so that lookup always
yields the `[]` default. -/
def linkageLists (ws : WordSense) : List (String × List WordLinkage) :=
  [("synonym", ws.synonyms), ("antonym", ws.antonyms), ("hypernym", ws.hypernyms),
   ("hyponym", []), ("meronym", ws.meronyms), ("holonym", ws.holonyms)]

/-- `",".join(rel.topics) if rel.topics else None` (importer.py:155):
Python truthiness maps both `None` and `[]` to `None`. -/
def joinTopics (topics : Option (List String)) : Option String :=
  match topics with
  | none => none
  | some ts => if ts.isEmpty then none else some (String.intercalate "," ts)

/-- The body of the inner `for rel in relations` loop of
`_process_sense_relations` (importer.py:137–159): unconditionally create a
brand-new target `Word` (pos/lang/lang_code "unknown"), a brand-new empty
`Sense` for it, and the `SenseRelation` from `senseIdx` to that sense. -/
def addOneRelation (senseIdx : Nat) (rel_type : String) (rel : WordLinkage) (st : Imp) :
    Imp :=
  let targetWordIdx := st.pending_words.length
  let st := { st with
              pending_words := st.pending_words ++
                [({ word := rel.word, pos := "unknown", lang := "unknown",
                    lang_code := "unknown" } : PWord)] }
  let targetSenseIdx := st.pending_senses.length
  let st := { st with
              pending_senses := st.pending_senses ++ [({ wordIdx := targetWordIdx } : PSense)] }
  { st with
    pending_relations := st.pending_relations ++
      [({ sourceIdx := senseIdx, targetIdx := targetSenseIdx, relation_type := rel_type
          topics := joinTopics rel.topics, taxonomic := rel.taxonomic
          roman := rel.roman } : PRelation)] }

/-- The inner loop of `_process_sense_relations` over one relation list. -/
def addRelations (senseIdx : Nat) (rel_type : String) (rels : List WordLinkage)
    (st : Imp) : Imp :=
  match rels with
  | [] => st
  | rel :: rest => addRelations senseIdx rel_type rest (addOneRelation senseIdx rel_type rel st)

/-- `_process_sense_relations` (importer.py:124–159). -/
def process_sense_relations (st : Imp) (senseIdx : Nat) (ws : WordSense) : Imp :=
  (linkageLists ws).foldl (fun st p => addRelations senseIdx p.1 p.2 st) st

/-- The gloss-append step of `_process_sense` (importer.py:166–173). -/
def addGloss (senseIdx : Nat) (is_raw : Bool) (st : Imp) (g : String) : Imp :=
  { st with
    pending_glosses := st.pending_glosses ++
      [({ senseIdx := senseIdx, text := g, is_raw := is_raw } : PGloss)] }

/-- The example-append step of `_process_sense` (importer.py:176–186). -/
def addExample (senseIdx : Nat) (st : Imp) (ex : WExample) : Imp :=
  { st with
    pending_examples := st.pending_examples ++
      [({ senseIdx := senseIdx, text := ex.text, ref := ex.ref, english := ex.english,
          type := ex.type, roman := ex.roman, note := ex.note } : PExample)] }

/-- `_process_sense` (importer.py:161–192): append the sense, its glosses
(clean then raw), its examples, resolve its tag rows, then process its
relations. -/
def process_sense (st : Imp) (wordIdx : Nat) (ws : WordSense) : Imp :=
  let senseIdx := st.pending_senses.length
  let st := { st with
              pending_senses := st.pending_senses ++
                [({ wordIdx := wordIdx, english := ws.english, tags := ws.tags } : PSense)] }
  let st := ws.glosses.foldl (addGloss senseIdx false) st
  let st := ws.raw_glosses.foldl (addGloss senseIdx true) st
  let st := ws.examples.foldl (addExample senseIdx) st
  let st := ws.tags.foldl get_tag st
  process_sense_relations st senseIdx ws

/-- The `if not any([...])` early-return guard of `flush_batch`
(importer.py:214–224). -/
def buffersEmpty (st : Imp) : Bool :=
  st.pending_words.isEmpty && st.pending_senses.isEmpty &&
    st.pending_glosses.isEmpty && st.pending_examples.isEmpty &&
    st.pending_forms.isEmpty && st.pending_relations.isEmpty

/-- Result of an importer operation: the optional propagated store-write
error (the step index at which the write raised) and the post state. -/
structure Outcome where
  err : Option Nat
  st : Imp
deriving DecidableEq

/-- The `finally` block of `flush_batch` (importer.py:272–279): clear the six
pending buffers, whatever happened in the `try` block. -/
def clearBuffers (st : Imp) : Imp :=
  { st with
    pending_words := [], pending_senses := [], pending_glosses := []
    pending_examples := [], pending_forms := [], pending_relations := [] }

set_option maxHeartbeats 1000000 in
/-- `flush_batch` (importer.py:212–279), with write-fault injection: `fail =
some k` makes the k-th store-write step of the `try` block raise (0 = add and
flush the words, 1 = add and flush the senses, 2/3/4/5 = the four
`bulk_save_objects` calls, 6 = the final `session.commit()`).  On a raise the
`finally` block still clears the buffers, the uncommitted writes stay in the
session's working snapshot, and the error propagates. -/
def flush_batch (fail : Option Nat) (st : Imp) : Outcome :=
  if buffersEmpty st then ⟨none, st⟩
  else if fail = some 0 then ⟨some 0, clearBuffers st⟩
  else
    -- step 0: session.add each pending word, session.flush assigns their ids
    let wBase := st.sess.working.next_word_id
    let newWords := st.pending_words.mapIdx fun i w => DWord.mk (wBase + i) w
    let db0 := { st.sess.working with
                 words := st.sess.working.words ++ newWords
                 next_word_id := wBase + st.pending_words.length }
    let st := { st with sess := { st.sess with working := db0 } }
    if fail = some 1 then ⟨some 1, clearBuffers st⟩
    else
    -- backfill word_id on the pending senses from the assigned word ids,
    -- step 1: session.add each pending sense, session.flush assigns their ids
    let sBase := st.sess.working.next_sense_id
    let newSenses := st.pending_senses.mapIdx fun i s =>
      DSense.mk (sBase + i) (wBase + s.wordIdx) s.english s.tags
    let db1 := { st.sess.working with
                 senses := st.sess.working.senses ++ newSenses
                 next_sense_id := sBase + st.pending_senses.length }
    let st := { st with sess := { st.sess with working := db1 } }
    if fail = some 2 then ⟨some 2, clearBuffers st⟩
    else
    -- backfill sense_id on glosses, step 2: bulk_save_objects(glosses)
    let newGlosses := st.pending_glosses.map fun g =>
      DGloss.mk (sBase + g.senseIdx) g.text g.is_raw
    let db2 := { st.sess.working with glosses := st.sess.working.glosses ++ newGlosses }
    let st := { st with sess := { st.sess with working := db2 } }
    if fail = some 3 then ⟨some 3, clearBuffers st⟩
    else
    -- backfill sense_id on examples, step 3: bulk_save_objects(examples)
    let newExamples := st.pending_examples.map fun ex =>
      DExample.mk (sBase + ex.senseIdx) ex.text ex.ref ex.english ex.type ex.roman ex.note
    let db3 := { st.sess.working with
                 examples := st.sess.working.examples ++ newExamples }
    let st := { st with sess := { st.sess with working := db3 } }
    if fail = some 4 then ⟨some 4, clearBuffers st⟩
    else
    -- backfill word_id on forms, step 4: bulk_save_objects(forms)
    let newForms := st.pending_forms.map fun f =>
      DForm.mk (wBase + f.wordIdx) f.form f.ipa f.roman f.source f.tags
    let db4 := { st.sess.working with forms := st.sess.working.forms ++ newForms }
    let st := { st with sess := { st.sess with working := db4 } }
    if fail = some 5 then ⟨some 5, clearBuffers st⟩
    else
    -- backfill source/target ids on relations, step 5: bulk_save_objects(relations)
    let newRelations := st.pending_relations.map fun r =>
      DRelation.mk (sBase + r.sourceIdx) (sBase + r.targetIdx) r.relation_type
        r.topics r.taxonomic r.roman
    let db5 := { st.sess.working with
                 relations := st.sess.working.relations ++ newRelations }
    let st := { st with sess := { st.sess with working := db5 } }
    if fail = some 6 then ⟨some 6, clearBuffers st⟩
    else
    -- step 6: session.commit()
    ⟨none, clearBuffers { st with sess := st.sess.commit }⟩

/-- The surrounding `Database.session` scope (database.py:53–64): a raise
inside the scope rolls the session back and re-raises; otherwise the scope
commits whatever the body left uncommitted. -/
def flushInSession (fail : Option Nat) (st : Imp) : Outcome :=
  let r := flush_batch fail st
  match r.err with
  | some e => ⟨some e, { r.st with sess := r.st.sess.rollback }⟩
  | none => ⟨none, { r.st with sess := r.st.sess.commit }⟩

/-- `import_word` (importer.py:194–210): process the word, its forms and its
senses, bump the counter, and flush when the counter reaches a multiple of
the batch size. -/
def import_word (fail : Option Nat) (st : Imp) (e : WordEntry) : Outcome :=
  let p := process_word st e
  let st := process_word_forms p.1 p.2 e
  let st := e.senses.foldl (fun st ws => process_sense st p.2 ws) st
  let st := { st with entries_processed := st.entries_processed + 1 }
  if st.entries_processed % st.batch_size = 0 then flush_batch fail st
  else ⟨none, st⟩

/-- `finalize` (importer.py:281–283): nothing but a final flush — in
particular no flag is set and no further state is touched. -/
def finalize (fail : Option Nat) (st : Imp) : Outcome :=
  flush_batch fail st

end Importer

/-! ## The store fingerprint (`database.py`)

`generate_fingerprint` is `hashlib.md5(f"{name}_{size}_{int(mtime)}".encode())
.hexdigest()[:12]`; MD5 (RFC 1321) is embedded below over byte lists, with
32-bit words as `Nat` reduced mod `2^32`. -/

namespace MD5

/-- Addition mod 2^32. -/
def add32 (a b : Nat) : Nat := (a + b) % 2 ^ 32

/-- Bitwise complement on 32-bit words (inputs are kept `< 2^32`). -/
def wnot (a : Nat) : Nat := Nat.xor (a % 2 ^ 32) (2 ^ 32 - 1)

/-- Left rotation of a 32-bit word by `s` bits. -/
def rotl (x s : Nat) : Nat :=
  ((x % 2 ^ 32) * 2 ^ s) % 2 ^ 32 + (x % 2 ^ 32) / 2 ^ (32 - s)

/-- Round function F (rounds 0–15): `(B ∧ C) ∨ (¬B ∧ D)`. -/
def auxF (b c d : Nat) : Nat := Nat.lor (Nat.land b c) (Nat.land (wnot b) d)

/-- Round function G (rounds 16–31): `(D ∧ B) ∨ (¬D ∧ C)`. -/
def auxG (b c d : Nat) : Nat := Nat.lor (Nat.land d b) (Nat.land (wnot d) c)

/-- Round function H (rounds 32–47): `B ⊕ C ⊕ D`. -/
def auxH (b c d : Nat) : Nat := Nat.xor b (Nat.xor c d)

/-- Round function I (rounds 48–63): `C ⊕ (B ∨ ¬D)`. -/
def auxI (b c d : Nat) : Nat := Nat.xor c (Nat.lor b (wnot d))

/-- The 64 sine-derived round constants `⌊2^32·|sin(i+1)|⌋` of RFC 1321. -/
def K : List Nat :=
  [0xd76aa478, 0xe8c7b756, 0x242070db, 0xc1bdceee,
   0xf57c0faf, 0x4787c62a, 0xa8304613, 0xfd469501,
   0x698098d8, 0x8b44f7af, 0xffff5bb1, 0x895cd7be,
   0x6b901122, 0xfd987193, 0xa679438e, 0x49b40821,
   0xf61e2562, 0xc040b340, 0x265e5a51, 0xe9b6c7aa,
   0xd62f105d, 0x02441453, 0xd8a1e681, 0xe7d3fbc8,
   0x21e1cde6, 0xc33707d6, 0xf4d50d87, 0x455a14ed,
   0xa9e3e905, 0xfcefa3f8, 0x676f02d9, 0x8d2a4c8a,
   0xfffa3942, 0x8771f681, 0x6d9d6122, 0xfde5380c,
   0xa4beea44, 0x4bdecfa9, 0xf6bb4b60, 0xbebfbc70,
   0x289b7ec6, 0xeaa127fa, 0xd4ef3085, 0x04881d05,
   0xd9d4d039, 0xe6db99e5, 0x1fa27cf8, 0xc4ac5665,
   0xf4292244, 0x432aff97, 0xab9423a7, 0xfc93a039,
   0x655b59c3, 0x8f0ccc92, 0xffeff47d, 0x85845dd1,
   0x6fa87e4f, 0xfe2ce6e0, 0xa3014314, 0x4e0811a1,
   0xf7537e82, 0xbd3af235, 0x2ad7d2bb, 0xeb86d391]

/-- The per-round left-rotation amounts of RFC 1321. -/
def S : List Nat :=
  [7, 12, 17, 22, 7, 12, 17, 22, 7, 12, 17, 22, 7, 12, 17, 22,
   5, 9, 14, 20, 5, 9, 14, 20, 5, 9, 14, 20, 5, 9, 14, 20,
   4, 11, 16, 23, 4, 11, 16, 23, 4, 11, 16, 23, 4, 11, 16, 23,
   6, 10, 15, 21, 6, 10, 15, 21, 6, 10, 15, 21, 6, 10, 15, 21]

/-- The message-word index read in round `i`. -/
def gIndex (i : Nat) : Nat :=
  if i < 16 then i
  else if i < 32 then (5 * i + 1) % 16
  else if i < 48 then (3 * i + 5) % 16
  else (7 * i) % 16

/-- The round function used in round `i`. -/
def auxFun (i b c d : Nat) : Nat :=
  if i < 16 then auxF b c d
  else if i < 32 then auxG b c d
  else if i < 48 then auxH b c d
  else auxI b c d

/-- The four 32-bit words of the MD5 state. -/
structure St4 where
  a : Nat
  b : Nat
  c : Nat
  d : Nat
deriving DecidableEq

/-- The initial MD5 state of RFC 1321. -/
def initSt : St4 := ⟨0x67452301, 0xefcdab89, 0x98badcfe, 0x10325476⟩

/-- One MD5 round on message words `m`. -/
def round (m : List Nat) (st : St4) (i : Nat) : St4 :=
  let f := add32 (add32 (add32 (auxFun i st.b st.c st.d) st.a) (K.getD i 0))
    (m.getD (gIndex i) 0)
  ⟨st.d, add32 st.b (rotl f (S.getD i 0)), st.b, st.c⟩

/-- Process one 512-bit block: 64 rounds, then add the input state back. -/
def processBlock (st : St4) (m : List Nat) : St4 :=
  let r := (List.range 64).foldl (round m) st
  ⟨add32 st.a r.a, add32 st.b r.b, add32 st.c r.c, add32 st.d r.d⟩

/-- Decode a byte list into little-endian 32-bit words (4 bytes each). -/
def toWords : List Nat → List Nat
  | b0 :: b1 :: b2 :: b3 :: rest =>
      (b0 % 256 + b1 % 256 * 256 + b2 % 256 * 65536 + b3 % 256 * 16777216) ::
        toWords rest
  | _ => []

/-- Split a byte list into 64-byte chunks (fuel-driven for structural
recursion; `fuel = length` suffices since each step consumes ≥ 1 byte). -/
def chunksAux : Nat → List Nat → List (List Nat)
  | 0, _ => []
  | _, [] => []
  | fuel + 1, l => l.take 64 :: chunksAux fuel (l.drop 64)

/-- Split a byte list into 64-byte chunks. -/
def chunks64 (l : List Nat) : List (List Nat) := chunksAux l.length l

/-- The 8-byte little-endian encoding of the message bit length. -/
def lenBytes (len : Nat) : List Nat :=
  (List.range 8).map fun i => 8 * len / 2 ^ (8 * i) % 256

/-- RFC 1321 padding: `0x80`, zeros to 56 mod 64, then the 64-bit length. -/
def padMessage (msg : List Nat) : List Nat :=
  msg ++ [0x80] ++ List.replicate ((119 - msg.length % 64) % 64) 0 ++
    lenBytes msg.length

/-- Serialize one 32-bit word into 4 little-endian bytes. -/
def wordBytes (w : Nat) : List Nat :=
  [w % 256, w / 2 ^ 8 % 256, w / 2 ^ 16 % 256, w / 2 ^ 24 % 256]

/-- The 16-byte MD5 digest of a byte list. -/
def digest (msg : List Nat) : List Nat :=
  let st := ((chunks64 (padMessage msg)).map toWords).foldl processBlock initSt
  wordBytes st.a ++ wordBytes st.b ++ wordBytes st.c ++ wordBytes st.d

/-- Two lowercase hex digits of one byte (`"%02x"`); `Nat.digitChar` maps
0–15 to the lowercase hex digits. -/
def byteHex (b : Nat) : List Char := [Nat.digitChar (b / 16 % 16), Nat.digitChar (b % 16)]

/-- `hashlib.md5(bytes).hexdigest()` as a character list. -/
def hexdigest (msg : List Nat) : List Char := (digest msg).flatMap byteHex

end MD5

namespace Database

/-- The UTF-8 bytes of a string (`str.encode()`), as `Nat`s `< 256`. -/
def strBytes (s : String) : List Nat := s.toUTF8.toList.map (·.toNat)

/-- `generate_fingerprint` (database.py:13–19): the file's stat triple is the
argument — name, size and truncated modification time — since the function
reads nothing else of the file; `f"{name}_{size}_{mtime}"` is hashed with MD5
and the hex digest truncated to 12 characters. -/
def generate_fingerprint (name : String) (size : Nat) (mtime : Int) : String :=
  String.mk ((MD5.hexdigest (strBytes
    (name ++ "_" ++ toString size ++ "_" ++ toString mtime))).take 12)

/-- `get_cache_dir` (database.py:22–24), with the home directory as the one
environment input. -/
def get_cache_dir (home : String) : String := home ++ "/.cache/wikilite"

/-- `get_db_path` (database.py:27–32): `<cache>/<fingerprint>.db`, or the
default store when no fingerprint is given. -/
def get_db_path (home : String) (fingerprint : Option String) : String :=
  match fingerprint with
  | some f => get_cache_dir home ++ "/" ++ f ++ ".db"
  | none => get_cache_dir home ++ "/default.db"

/-- A lowercase hexadecimal digit. -/
def isHexDigit (c : Char) : Bool :=
  ('0' ≤ c && c ≤ '9') || ('a' ≤ c && c ≤ 'f')

end Database

/-! ## Concrete stores and inputs used by witnesses and counterexamples -/

/-- The hand-built 4-node graph of spec §8: nodes A=0, B=1, C=2, D=3 and edges
A-synonym-B, B-antonym-C, C-hypernym-D (edge ids 1, 2, 3). -/
def fourNodeGraph : List Triplet :=
  [⟨1, 0, "synonym", 1⟩, ⟨2, 1, "antonym", 2⟩, ⟨3, 2, "hypernym", 3⟩]

/-! ## Helper lemmas -/

theorem stepRows_nil (edges : List Triplet) (depth : Nat)
    (relTypes : Option (List String)) : Frontend.stepRows edges depth relTypes [] = [] :=
  rfl

theorem cteIter_nil (edges : List Triplet) (depth : Nat)
    (relTypes : Option (List String)) :
    ∀ fuel, Frontend.cteIter edges depth relTypes fuel [] = []
  | 0 => rfl
  | fuel + 1 => by
      simp [Frontend.cteIter, stepRows_nil, cteIter_nil edges depth relTypes fuel]

/-! ## Claim theorems -/

/-- C4: on the 4-node graph with exactly the edges A-synonym-B, B-antonym-C,
C-hypernym-D, the bounded-depth traversal from A's word id with depth 2 and no
predicate filter returns exactly the edge set {A-synonym-B, B-antonym-C} and
excludes C-hypernym-D. -/
theorem c4_depth2_traversal_exact :
    Frontend.get_relationships_with_depth fourNodeGraph 0 2 none =
      [⟨1, 0, "synonym", 1⟩, ⟨2, 1, "antonym", 2⟩] ∧
    (⟨3, 2, "hypernym", 3⟩ : Triplet) ∉
      Frontend.get_relationships_with_depth fourNodeGraph 0 2 none := by
  decide

/-- C7: for every store and every depth ≥ 1, the bounded-depth traversal with
a start word id that appears in no triplet row returns an empty result (and,
being a total function, raises no error). -/
theorem c7_unknown_start_empty (edges : List Triplet) (wordId depth : Nat)
    (relTypes : Option (List String)) (hdepth : 1 ≤ depth)
    (hunknown : ∀ t ∈ edges, t.subject_id ≠ wordId ∧ t.object_id ≠ wordId) :
    Frontend.get_relationships_with_depth edges wordId depth relTypes = [] := by
  have hbase : Frontend.baseRows edges wordId relTypes = [] := by
    unfold Frontend.baseRows
    rw [List.filter_eq_nil_iff.mpr, List.map_nil]
    intro t ht
    simp only [Bool.and_eq_true, Bool.or_eq_true, beq_iff_eq, not_and] at *
    intro hor
    exact absurd hor (by
      rcases hunknown t ht with ⟨h1, h2⟩
      simp [h1, h2])
  simp only [Frontend.get_relationships_with_depth, Frontend.relationshipTreeRows, hbase,
    cteIter_nil, List.nil_append, List.map_nil]
  simp [Frontend.sortById]

/-- C7 witness: the theorem applied to a one-edge store and the unknown start
word id 99. -/
theorem c7_unknown_start_empty_witness :
    Frontend.get_relationships_with_depth [⟨1, 5, "synonym", 6⟩] 99 2 none = [] :=
  c7_unknown_start_empty [⟨1, 5, "synonym", 6⟩] 99 2 none (by decide) (by decide)

/-- C5: predicate canonicalization maps each plural relation-field name to its
canonical singular per the fixed table, passes unmapped names through
unchanged, and is idempotent. -/
theorem c5_singularize_relation_spec :
    (∀ p ∈ relation_types, singularize_relation p.1 = p.2) ∧
    (∀ x : String, relation_types.lookup x = none → singularize_relation x = x) ∧
    (∀ x : String, singularize_relation (singularize_relation x) =
      singularize_relation x) := by
  refine ⟨by decide, fun x hx => by simp [singularize_relation, hx], fun x => ?_⟩
  by_cases h1 : x = "synonyms"
  · subst h1; decide
  by_cases h2 : x = "antonyms"
  · subst h2; decide
  by_cases h3 : x = "hypernyms"
  · subst h3; decide
  by_cases h4 : x = "hyponyms"
  · subst h4; decide
  by_cases h5 : x = "meronyms"
  · subst h5; decide
  by_cases h6 : x = "holonyms"
  · subst h6; decide
  have hnone : relation_types.lookup x = none := by
    have e1 : (x == "synonyms") = false := beq_eq_false_iff_ne.mpr h1
    have e2 : (x == "antonyms") = false := beq_eq_false_iff_ne.mpr h2
    have e3 : (x == "hypernyms") = false := beq_eq_false_iff_ne.mpr h3
    have e4 : (x == "hyponyms") = false := beq_eq_false_iff_ne.mpr h4
    have e5 : (x == "meronyms") = false := beq_eq_false_iff_ne.mpr h5
    have e6 : (x == "holonyms") = false := beq_eq_false_iff_ne.mpr h6
    simp [relation_types, List.lookup, e1, e2, e3, e4, e5, e6]
  simp [singularize_relation, hnone]

/-- C5 witness: the theorem applied at the concrete inputs "related" (unmapped:
passes through) and "synonyms" (mapped, then idempotent). -/
theorem c5_singularize_relation_witness :
    singularize_relation "related" = "related" ∧
    singularize_relation (singularize_relation "synonyms") =
      singularize_relation "synonyms" :=
  ⟨c5_singularize_relation_spec.2.1 "related" (by decide),
   c5_singularize_relation_spec.2.2 "synonyms"⟩

/-! ### Importer helper lemmas -/

theorem buffersEmpty_clearBuffers (st : Importer.Imp) :
    Importer.buffersEmpty (Importer.clearBuffers st) = true := rfl

theorem flush_batch_on_empty (fail : Option Nat) (st : Importer.Imp)
    (h : Importer.buffersEmpty st = true) :
    Importer.flush_batch fail st = ⟨none, st⟩ := by
  unfold Importer.flush_batch
  simp [h]

set_option maxHeartbeats 1600000 in
theorem flush_batch_clears (fail : Option Nat) (st : Importer.Imp) :
    Importer.buffersEmpty (Importer.flush_batch fail st).st = true := by
  unfold Importer.flush_batch
  split_ifs <;> simp_all [Importer.clearBuffers, Importer.buffersEmpty]

set_option maxHeartbeats 1600000 in
theorem flush_batch_none_err (st : Importer.Imp) :
    (Importer.flush_batch none st).err = none := by
  unfold Importer.flush_batch
  split_ifs <;> simp_all

set_option maxHeartbeats 1600000 in
theorem flush_batch_entries (fail : Option Nat) (st : Importer.Imp) :
    (Importer.flush_batch fail st).st.entries_processed = st.entries_processed := by
  unfold Importer.flush_batch
  split_ifs <;> simp_all [Importer.clearBuffers]

/-- `foldl` of a counter-preserving step preserves the counter. -/
theorem foldl_preserves_entries {α : Type} (f : Importer.Imp → α → Importer.Imp)
    (h : ∀ st a, (f st a).entries_processed = st.entries_processed) :
    ∀ (l : List α) (st : Importer.Imp),
      (l.foldl f st).entries_processed = st.entries_processed
  | [], _ => rfl
  | a :: l, st => by
      rw [List.foldl_cons, foldl_preserves_entries f h l, h]

theorem get_category_entries (st : Importer.Imp) (n : String) :
    (Importer.get_category st n).entries_processed = st.entries_processed := by
  unfold Importer.get_category
  split_ifs <;> rfl

theorem get_topic_entries (st : Importer.Imp) (n : String) :
    (Importer.get_topic st n).entries_processed = st.entries_processed := by
  unfold Importer.get_topic
  split_ifs <;> rfl

theorem get_tag_entries (st : Importer.Imp) (n : String) :
    (Importer.get_tag st n).entries_processed = st.entries_processed := by
  unfold Importer.get_tag
  split_ifs <;> rfl

theorem process_word_entries (st : Importer.Imp) (e : WordEntry) :
    (Importer.process_word st e).1.entries_processed = st.entries_processed := by
  unfold Importer.process_word
  simp [foldl_preserves_entries Importer.get_category get_category_entries,
    foldl_preserves_entries Importer.get_topic get_topic_entries]

theorem process_word_forms_entries (st : Importer.Imp) (i : Nat) (e : WordEntry) :
    (Importer.process_word_forms st i e).entries_processed = st.entries_processed := by
  unfold Importer.process_word_forms
  refine foldl_preserves_entries _ (fun st fd => ?_) e.forms st
  simp [foldl_preserves_entries Importer.get_tag get_tag_entries]

theorem addOneRelation_entries (i : Nat) (rt : String) (rel : WordLinkage)
    (st : Importer.Imp) :
    (Importer.addOneRelation i rt rel st).entries_processed = st.entries_processed := rfl

theorem addRelations_entries (i : Nat) (rt : String) :
    ∀ (rels : List WordLinkage) (st : Importer.Imp),
      (Importer.addRelations i rt rels st).entries_processed = st.entries_processed
  | [], _ => rfl
  | rel :: rest, st => by
      rw [Importer.addRelations, addRelations_entries i rt rest, addOneRelation_entries]

theorem process_sense_relations_entries (st : Importer.Imp) (i : Nat) (ws : WordSense) :
    (Importer.process_sense_relations st i ws).entries_processed =
      st.entries_processed := by
  unfold Importer.process_sense_relations
  exact foldl_preserves_entries
    (fun st (p : String × List WordLinkage) => Importer.addRelations i p.1 p.2 st)
    (fun st p => addRelations_entries i p.1 p.2 st) (Importer.linkageLists ws) st

theorem addGloss_entries (i : Nat) (r : Bool) (st : Importer.Imp) (g : String) :
    (Importer.addGloss i r st g).entries_processed = st.entries_processed := rfl

theorem addExample_entries (i : Nat) (st : Importer.Imp) (ex : WExample) :
    (Importer.addExample i st ex).entries_processed = st.entries_processed := rfl

theorem process_sense_entries (st : Importer.Imp) (i : Nat) (ws : WordSense) :
    (Importer.process_sense st i ws).entries_processed = st.entries_processed := by
  unfold Importer.process_sense
  rw [process_sense_relations_entries]
  rw [foldl_preserves_entries Importer.get_tag get_tag_entries]
  rw [foldl_preserves_entries (Importer.addExample st.pending_senses.length)
    (addExample_entries st.pending_senses.length)]
  rw [foldl_preserves_entries (Importer.addGloss st.pending_senses.length true)
    (addGloss_entries st.pending_senses.length true)]
  rw [foldl_preserves_entries (Importer.addGloss st.pending_senses.length false)
    (addGloss_entries st.pending_senses.length false)]

/-! ### Remaining claim theorems on the importer -/

/-- C10: `flush_batch` clears all six pending buffers whether the write
succeeds or raises (the `finally` block), so a subsequent `flush_batch` on the
otherwise-unchanged importer takes the early return and writes nothing. -/
theorem c10_flush_clears_buffers (st : Importer.Imp) (fail fail2 : Option Nat) :
    Importer.buffersEmpty (Importer.flush_batch fail st).st = true ∧
    Importer.flush_batch fail2 (Importer.flush_batch fail st).st =
      ⟨none, (Importer.flush_batch fail st).st⟩ :=
  ⟨flush_batch_clears fail st,
   flush_batch_on_empty fail2 _ (flush_batch_clears fail st)⟩

/-- C3: if the k-th store write of a flush raises (any of the seven write
steps, commit included), the flush commits nothing — the durable store is
unchanged — the surrounding session scope rolls the working state back to the
pre-flush committed state, and the error is propagated, not retried. -/
theorem c3_failed_flush_rolls_back (st : Importer.Imp) (k : Nat) (hk : k ≤ 6)
    (hne : Importer.buffersEmpty st = false) :
    (Importer.flushInSession (some k) st).err = some k ∧
    (Importer.flushInSession (some k) st).st.sess.committed = st.sess.committed ∧
    (Importer.flushInSession (some k) st).st.sess.working = st.sess.committed := by
  interval_cases k <;>
    simp [Importer.flushInSession, Importer.flush_batch, hne, Importer.clearBuffers,
      Importer.Sess.rollback]

/-- A concrete importer with one pending word, against an empty store. -/
def impFlushEx : Importer.Imp :=
  { sess := ⟨{}, {}⟩
    pending_words := [{ word := "cat", pos := "noun", lang := "English",
                        lang_code := "en" }] }

/-- C3 witness: the theorem applied to `impFlushEx` with the fourth write
step (`bulk_save_objects` of the examples) failing. -/
theorem c3_failed_flush_rolls_back_witness :
    (Importer.flushInSession (some 3) impFlushEx).err = some 3 ∧
    (Importer.flushInSession (some 3) impFlushEx).st.sess.committed =
      impFlushEx.sess.committed ∧
    (Importer.flushInSession (some 3) impFlushEx).st.sess.working =
      impFlushEx.sess.committed :=
  c3_failed_flush_rolls_back impFlushEx 3 (by decide) (by decide)

/-- A fresh importer over an empty store with the default batch size. -/
def impEx0 : Importer.Imp := Importer.initImporter {} 1000

/-- A concrete entry with one sense. -/
def entryRun : WordEntry :=
  { word := "run", pos := "verb", lang := "English", lang_code := "en",
    senses := [{ glosses := ["to move fast"] }] }

/-- C6 counterexample: after `finalize()`, a subsequent `import_word` call on
a concrete importer is NOT an error — it returns without error, increments the
processed counter and buffers the entry's word, refuting the claim that such a
call is an error. -/
theorem c6_counterexample :
    (Importer.import_word none (Importer.finalize none impEx0).st entryRun).err =
      none ∧
    (Importer.import_word none (Importer.finalize none impEx0).st entryRun).st.entries_processed
      = (Importer.finalize none impEx0).st.entries_processed + 1 ∧
    (Importer.import_word none (Importer.finalize none impEx0).st entryRun).st.pending_words.length
      = 1 := by
  decide

/-- C6 amended: `finalize()` only flushes and sets no flag, so a subsequent
`import_word` is silently accepted and processed normally — absent store-write
failures it returns no error and increments the processed counter (the
`0 < batch_size` hypothesis mirrors the division by `batch_size`). -/
theorem c6_amended (st : Importer.Imp) (e : WordEntry) (hbs : 0 < st.batch_size) :
    (Importer.import_word none (Importer.finalize none st).st e).err = none ∧
    (Importer.import_word none (Importer.finalize none st).st e).st.entries_processed
      = (Importer.finalize none st).st.entries_processed + 1 := by
  unfold Importer.import_word
  dsimp only
  constructor
  · split
    · exact flush_batch_none_err _
    · rfl
  · have hcount : ∀ σ : Importer.Imp,
        ((e.senses.foldl (fun st ws => Importer.process_sense st (Importer.process_word σ e).2 ws)
          (Importer.process_word_forms (Importer.process_word σ e).1
            (Importer.process_word σ e).2 e))).entries_processed = σ.entries_processed := by
      intro σ
      rw [foldl_preserves_entries _
        (fun st ws => process_sense_entries st (Importer.process_word σ e).2 ws)]
      rw [process_word_forms_entries, process_word_entries]
    split
    · rw [flush_batch_entries]
      simp [hcount]
    · simp [hcount]

/-- C6 amended witness: the amended theorem applied to the fresh importer
`impEx0` and the entry `entryRun`. -/
theorem c6_amended_witness :
    (Importer.import_word none (Importer.finalize none impEx0).st entryRun).err = none ∧
    (Importer.import_word none (Importer.finalize none impEx0).st entryRun).st.entries_processed
      = (Importer.finalize none impEx0).st.entries_processed + 1 :=
  c6_amended impEx0 entryRun (by decide)

/-! ### C9: freshness of relation-target rows -/

/-- The target `Word` object created for one relation occurrence
(importer.py:139–144). -/
def mkUnknownWord (w : String) : Importer.PWord :=
  { word := w, pos := "unknown", lang := "unknown", lang_code := "unknown" }

/-- All relation occurrences of a sense, in the order
`_process_sense_relations` visits them. -/
def relOccurrences (ws : WordSense) : List WordLinkage :=
  (Importer.linkageLists ws).flatMap (·.2)

theorem addRelations_pending (i : Nat) (rt : String) :
    ∀ (rels : List WordLinkage) (st : Importer.Imp),
      (Importer.addRelations i rt rels st).pending_words =
        st.pending_words ++ rels.map (fun rel => mkUnknownWord rel.word) ∧
      (Importer.addRelations i rt rels st).pending_senses =
        st.pending_senses ++ (List.range rels.length).map
          (fun j => ({ wordIdx := st.pending_words.length + j } : Importer.PSense))
  | [], st => by simp [Importer.addRelations]
  | rel :: rest, st => by
      obtain ⟨ihw, ihs⟩ := addRelations_pending i rt rest (Importer.addOneRelation i rt rel st)
      rw [Importer.addRelations]
      constructor
      · rw [ihw]
        show (st.pending_words ++ [mkUnknownWord rel.word]) ++ _ = _
        simp
      · rw [ihs]
        show (st.pending_senses ++ [({ wordIdx := st.pending_words.length } : Importer.PSense)]) ++ _ = _
        have hlen : (Importer.addOneRelation i rt rel st).pending_words.length =
            st.pending_words.length + 1 := by
          show (st.pending_words ++ [mkUnknownWord rel.word]).length = _
          simp
        rw [hlen, List.length_cons, List.range_succ_eq_map, List.map_cons, List.map_map]
        simp only [List.append_assoc, List.singleton_append, Nat.add_zero]
        congr 2
        refine List.map_congr_left fun j _ => ?_
        simp only [Function.comp_apply]
        congr 1
        omega

theorem foldl_addRelations_pending (i : Nat) :
    ∀ (L : List (String × List WordLinkage)) (st : Importer.Imp),
      (L.foldl (fun st p => Importer.addRelations i p.1 p.2 st) st).pending_words =
        st.pending_words ++ (L.flatMap (·.2)).map (fun rel => mkUnknownWord rel.word) ∧
      (L.foldl (fun st p => Importer.addRelations i p.1 p.2 st) st).pending_senses =
        st.pending_senses ++ (List.range (L.flatMap (·.2)).length).map
          (fun j => ({ wordIdx := st.pending_words.length + j } : Importer.PSense))
  | [], st => by simp
  | (rt, rels) :: rest, st => by
      obtain ⟨ihw, ihs⟩ :=
        foldl_addRelations_pending i rest (Importer.addRelations i rt rels st)
      obtain ⟨hw, hs⟩ := addRelations_pending i rt rels st
      rw [List.foldl_cons]
      constructor
      · rw [ihw, hw]
        simp [List.flatMap_cons]
      · rw [ihs, hs]
        have hlen : (Importer.addRelations i rt rels st).pending_words.length =
            st.pending_words.length + rels.length := by
          rw [hw]; simp
        rw [hlen, List.flatMap_cons, List.length_append, List.range_add, List.map_append,
          List.map_map, List.append_assoc]
        congr 2
        refine List.map_congr_left fun j _ => ?_
        simp only [Function.comp_apply]
        congr 1
        omega

/-- C9: each per-sense relation occurrence appends one brand-new target `Word`
object with pos, lang and lang_code all "unknown" and one brand-new empty
`Sense` referencing exactly that fresh word — never reusing an existing row —
so n occurrences (same target literal or not) contribute n distinct word rows
and n distinct sense rows. -/
theorem c9_relation_targets_fresh (st : Importer.Imp) (senseIdx : Nat) (ws : WordSense) :
    (Importer.process_sense_relations st senseIdx ws).pending_words =
      st.pending_words ++ (relOccurrences ws).map (fun rel => mkUnknownWord rel.word) ∧
    (Importer.process_sense_relations st senseIdx ws).pending_senses =
      st.pending_senses ++ (List.range (relOccurrences ws).length).map
        (fun j => ({ wordIdx := st.pending_words.length + j } : Importer.PSense)) ∧
    (Importer.process_sense_relations st senseIdx ws).pending_words.length =
      st.pending_words.length + (relOccurrences ws).length ∧
    (Importer.process_sense_relations st senseIdx ws).pending_senses.length =
      st.pending_senses.length + (relOccurrences ws).length := by
  unfold Importer.process_sense_relations
  obtain ⟨hw, hs⟩ := foldl_addRelations_pending senseIdx (Importer.linkageLists ws) st
  refine ⟨by simpa [relOccurrences] using hw, by simpa [relOccurrences] using hs, ?_, ?_⟩
  · rw [hw]; simp [relOccurrences]
  · rw [hs]; simp [relOccurrences]

/-! ### C1 / C2: the closure behaviour of the simplified pipeline -/

theorem mem_mapIdx_of_mem {α β : Type} {f : Nat → α → β} {l : List α} {b : β}
    (h : b ∈ l.mapIdx f) : ∃ i, ∃ hi : i < l.length, b = f i (l.get ⟨i, hi⟩) := by
  rw [List.mapIdx_eq_enum_map] at h
  obtain ⟨⟨i, a⟩, hmem, rfl⟩ := List.mem_map.mp h
  obtain ⟨hi, ha⟩ := List.mem_enum hmem
  exact ⟨i, hi, by simp [Function.uncurry, ha]⟩

/-- Every triplet persisted by `_import_triples` takes both of its endpoint
ids from rows of the word table it was given. -/
theorem _import_triples_endpoints (W : List BWord) (τ : List Base.T3) (t : Triplet)
    (ht : t ∈ Base._import_triples W τ) :
    (∃ w ∈ W, w.id = t.subject_id) ∧ (∃ w ∈ W, w.id = t.object_id) := by
  unfold Base._import_triples at ht
  obtain ⟨i, hi, rfl⟩ := mem_mapIdx_of_mem ht
  have hp : (Base.tripletPairs W τ).get ⟨i, hi⟩ ∈ Base.tripletPairs W τ :=
    List.get_mem _ _ hi
  unfold Base.tripletPairs at hp
  rw [List.mem_flatMap] at hp
  obtain ⟨t3, _, hp⟩ := hp
  rw [List.mem_flatMap] at hp
  obtain ⟨s, hs, hp⟩ := hp
  rw [List.mem_map] at hp
  obtain ⟨o, ho, hpo⟩ := hp
  have hsW : s ∈ W := (List.mem_filter.mp hs).1
  have hoW : o ∈ W := (List.mem_filter.mp ho).1
  have hpo' : (s.id, t3.2.1, o.id) = (Base.tripletPairs W τ).get ⟨i, hi⟩ := hpo
  constructor
  · exact ⟨s, hsW, by rw [← hpo']⟩
  · exact ⟨o, hoW, by rw [← hpo']⟩

/-- C1: in any store produced by a full import, every persisted triplet row's
subject_id and object_id reference word rows present in that store — no
dangling endpoints. -/
theorem c1_no_dangling_endpoints (entries : List WordEntry) (t : Triplet)
    (ht : t ∈ (Base.from_jsonl entries).triplets) :
    (∃ w ∈ (Base.from_jsonl entries).words, w.id = t.subject_id) ∧
    (∃ w ∈ (Base.from_jsonl entries).words, w.id = t.object_id) :=
  _import_triples_endpoints _ _ t ht

/-- The cat/kitty end-to-end corpus of spec §8. -/
def catKitty : List WordEntry :=
  [{ word := "cat", pos := "noun", lang := "English", lang_code := "en",
     senses := [{ glosses := ["a small domesticated feline"] }],
     synonyms := [{ word := "kitty" }] },
   { word := "kitty", pos := "noun", lang := "English", lang_code := "en",
     senses := [{ glosses := ["informal name for cat"] }] }]

/-- C1 witness: the theorem applied to the cat/kitty corpus and its one
persisted synonym triplet. -/
theorem c1_no_dangling_endpoints_witness :
    (∃ w ∈ (Base.from_jsonl catKitty).words, w.id = (0 : Nat)) ∧
    (∃ w ∈ (Base.from_jsonl catKitty).words, w.id = (1 : Nat)) :=
  c1_no_dangling_endpoints catKitty ⟨0, 0, "synonym", 1⟩ (by decide)

/-- Every word row produced by `importWordRows` takes its literal from a key
of the data map it was given. -/
theorem importWordRows_literal (data : Base.Data) (w : BWord)
    (hw : w ∈ Base.importWordRows data) : w.word ∈ data.map (·.1) := by
  unfold Base.importWordRows at hw
  obtain ⟨i, hi, rfl⟩ := mem_mapIdx_of_mem hw
  have hp := List.get_mem (data.flatMap fun p => p.2.map fun q => (p.1, q.1)) i hi
  rw [List.mem_flatMap] at hp
  obtain ⟨p, hpd, hp⟩ := hp
  rw [List.mem_map] at hp
  obtain ⟨q, _, hq⟩ := hp
  rw [List.mem_map]
  exact ⟨p, hpd, by rw [← hq]⟩

/-- The entry whose only relation points at an undefined word: the closure
filter retains "A" (it has a definition and occurs in a triple), the triple
filter keeps (A, synonym, X) since one endpoint is retained, but
`_import_triples` can persist no triplet from it because "X" has no word row. -/
def entryA : WordEntry :=
  { word := "A", pos := "noun", lang := "English", lang_code := "en",
    senses := [{ glosses := ["d"] }],
    synonyms := [{ word := "X" }] }

/-- C2 counterexample: in the store imported from `[entryA]` the retained word
row "A" appears as subject or object of NO persisted triplet row, refuting the
claim that every retained word participates in at least one persisted triplet
(its other conjunct — a definition per retained word — does hold here, so the
conjunction fails on the participation half). -/
theorem c2_counterexample :
    ¬ (∀ w ∈ (Base.from_jsonl [entryA]).words,
        ∃ t ∈ (Base.from_jsonl [entryA]).triplets,
          t.subject_id = w.id ∨ t.object_id = w.id) := by
  decide

/-- C2 amended: every word row retained by a full import carries its one
definition (the simplified schema fuses word and sense into one row), and its
literal appears as subject or object of at least one collected,
closure-filtered triple; participation in a *persisted* triplet additionally
needs the triple's other endpoint to be retained, which need not hold. -/
theorem c2_amended (entries : List WordEntry) (w : BWord)
    (hw : w ∈ (Base.from_jsonl entries).words) :
    ∃ t ∈ Base.filterTriples (Base.collectAll entries).1
        (Base.retainedWords (Base.collectAll entries).1 (Base.collectAll entries).2),
      t.1 = w.word ∨ t.2.2 = w.word := by
  have hlit : w.word ∈ (Base.filterData (Base.collectAll entries).2
      (Base.retainedWords (Base.collectAll entries).1 (Base.collectAll entries).2)).map
        (·.1) :=
    importWordRows_literal _ w hw
  rw [List.mem_map] at hlit
  obtain ⟨p, hp, hpw⟩ := hlit
  unfold Base.filterData at hp
  rw [List.mem_filter] at hp
  obtain ⟨_, hret⟩ := hp
  have hretained : w.word ∈ Base.retainedWords (Base.collectAll entries).1
      (Base.collectAll entries).2 := by
    rw [← hpw]
    simpa using hret
  have htw : w.word ∈ Base.tripleWords (Base.collectAll entries).1 :=
    (List.mem_filter.mp hretained).1
  unfold Base.tripleWords at htw
  rw [List.mem_append, List.mem_map, List.mem_map] at htw
  rcases htw with ⟨t, htmem, hteq⟩ | ⟨t, htmem, hteq⟩
  · refine ⟨t, ?_, Or.inl hteq⟩
    unfold Base.filterTriples
    rw [List.mem_filter]
    exact ⟨htmem, by simp [hteq, hretained]⟩
  · refine ⟨t, ?_, Or.inr hteq⟩
    unfold Base.filterTriples
    rw [List.mem_filter]
    exact ⟨htmem, by simp [hteq, hretained]⟩

/-- C2 amended witness: the amended theorem applied to the cat/kitty corpus
and the word row for "cat". -/
theorem c2_amended_witness :
    ∃ t ∈ Base.filterTriples (Base.collectAll catKitty).1
        (Base.retainedWords (Base.collectAll catKitty).1 (Base.collectAll catKitty).2),
      t.1 = "cat" ∨ t.2.2 = "cat" :=
  c2_amended catKitty ⟨0, "cat", "a small domesticated feline"⟩ (by decide)

/-! ### C8: the store fingerprint -/

theorem digitChar_isHexDigit : ∀ n : Nat, n < 16 →
    Database.isHexDigit (Nat.digitChar n) = true := by
  decide

theorem digest_length (msg : List Nat) : (MD5.digest msg).length = 16 := by
  simp [MD5.digest, MD5.wordBytes]

theorem flatMap_byteHex_length :
    ∀ bs : List Nat, (bs.flatMap MD5.byteHex).length = 2 * bs.length
  | [] => rfl
  | b :: rest => by
      simp [MD5.byteHex, flatMap_byteHex_length rest]
      omega

theorem hexdigest_length (msg : List Nat) : (MD5.hexdigest msg).length = 32 := by
  rw [MD5.hexdigest, flatMap_byteHex_length, digest_length]

theorem mem_hexdigest_isHexDigit (msg : List Nat) (c : Char)
    (hc : c ∈ MD5.hexdigest msg) : Database.isHexDigit c = true := by
  rw [MD5.hexdigest, List.mem_flatMap] at hc
  obtain ⟨b, _, hc⟩ := hc
  rw [MD5.byteHex, List.mem_cons, List.mem_cons, List.mem_nil_iff] at hc
  rcases hc with hc | hc | hc
  · rw [hc]; exact digitChar_isHexDigit _ (Nat.mod_lt _ (by norm_num))
  · rw [hc]; exact digitChar_isHexDigit _ (Nat.mod_lt _ (by norm_num))
  · cases hc

/-- C8: the store fingerprint is a function of the source file's name, size
and (truncated) modification time only; it is always a 12-character lowercase
hexadecimal token; and two files agreeing on those three attributes get the
same fingerprint and hence the same on-disk store path. -/
theorem c8_fingerprint_spec (home n1 : String) (s1 : Nat) (t1 : Int)
    (n2 : String) (s2 : Nat) (t2 : Int)
    (hn : n1 = n2) (hs : s1 = s2) (ht : t1 = t2) :
    Database.generate_fingerprint n1 s1 t1 = Database.generate_fingerprint n2 s2 t2 ∧
    Database.get_db_path home (some (Database.generate_fingerprint n1 s1 t1)) =
      Database.get_db_path home (some (Database.generate_fingerprint n2 s2 t2)) ∧
    (Database.generate_fingerprint n1 s1 t1).length = 12 ∧
    ∀ c ∈ (Database.generate_fingerprint n1 s1 t1).data, Database.isHexDigit c = true := by
  subst hn hs ht
  refine ⟨rfl, rfl, ?_, ?_⟩
  · show (String.mk _).length = 12
    rw [String.length_mk, List.length_take, hexdigest_length]
    rfl
  · intro c hc
    have hc' : c ∈ MD5.hexdigest (Database.strBytes
        (n1 ++ "_" ++ toString s1 ++ "_" ++ toString t1)) :=
      List.take_subset _ _ hc
    exact mem_hexdigest_isHexDigit _ c hc'

/-- C8 witness: the theorem applied twice to the same concrete stat triple. -/
theorem c8_fingerprint_spec_witness :
    Database.generate_fingerprint "wiktextract-en.jsonl" 123456 1700000000 =
      Database.generate_fingerprint "wiktextract-en.jsonl" 123456 1700000000 ∧
    Database.get_db_path "/root"
        (some (Database.generate_fingerprint "wiktextract-en.jsonl" 123456 1700000000)) =
      Database.get_db_path "/root"
        (some (Database.generate_fingerprint "wiktextract-en.jsonl" 123456 1700000000)) ∧
    (Database.generate_fingerprint "wiktextract-en.jsonl" 123456 1700000000).length = 12 ∧
    ∀ c ∈ (Database.generate_fingerprint "wiktextract-en.jsonl" 123456 1700000000).data,
      Database.isHexDigit c = true :=
  c8_fingerprint_spec "/root" "wiktextract-en.jsonl" 123456 1700000000
    "wiktextract-en.jsonl" 123456 1700000000 rfl rfl rfl

end Wikilite
